import Mathlib

/-!
Verification of the webhook-gateway routing core.

This file gives a shallow embedding of the plugin-dispatch and message-routing
pipeline of the `webhook-gateway` repository: the `Gateway` (Route) type and its
`Init`/`HandleHTTP` behavior from `pkg/gateway/gateway.go`, the `Service`
(Router) startup sequence and the `HTTP` transport's `Handle` registration from
`pkg/service`, the TOML configuration binder, the request-context secret
propagation (`SetSecret`/`GetSecret`), and the Cloudflare Notifications source's
`ParseHTTP`.  Go interfaces (`Source`, `Destination`, the transport `Handler`)
become records of behavior functions; Go's `(value, error)` returns become pairs
with an `Option String` error component, and fallible operations return
`Except String`.  Externally-owned collaborators (Go's `fmt` verb formatting,
`http.ServeMux` duplicate-pattern panics, `encoding/json` decoding) are modelled
at their documented interface, each with a comment noting the modelled behavior.
-/

namespace WebhookGateway

/-- Keys stored in an execution context.  The gateway package declares a private
`contextKey` type with a single value `secretKey`; values stored by unrelated
packages live under keys of a different type, modelled here by `extra`. -/
inductive CtxKey where
  | secretKey
  | extra (n : Nat)
deriving DecidableEq, Repr

/-- Values stored in an execution context. -/
inductive CtxVal where
  | str (s : String)
  | num (n : Nat)
deriving DecidableEq, Repr

/-- A Go `context.Context` value chain: most recently attached key/value first.
`context.WithValue` prepends, and `ctx.Value` returns the most recent match. -/
abbrev Ctx := List (CtxKey × CtxVal)

/-- Embeds `ctx.Value(key)`: the most recently attached value for `key`. -/
def ctxValue (ctx : Ctx) (key : CtxKey) : Option CtxVal :=
  match ctx.find? (fun p => p.1 == key) with
  | some p => some p.2
  | none => none

/-- Embeds `gateway.SetSecret`: derive a context carrying the secret under the
private `secretKey`. -/
def SetSecret (ctx : Ctx) (secret : String) : Ctx :=
  (CtxKey.secretKey, CtxVal.str secret) :: ctx

/-- Embeds `gateway.GetSecret`: the stored secret, or `""` when absent or not a
string. -/
def GetSecret (ctx : Ctx) : String :=
  match ctxValue ctx CtxKey.secretKey with
  | some (CtxVal.str v) => v
  | _ => ""

/-- Embeds `gateway.Message`: the normalized unit of content. -/
structure Message where
  content : String
deriving DecidableEq, Repr

/-- An inbound HTTP request, with the fields the modelled code reads: its
execution context, its headers, and its (fully read) body. -/
structure HttpRequest where
  ctx : Ctx
  headers : List (String × String)
  body : String

/-- Embeds `http.Header.Get`: first value for the key, or `""` when absent. -/
def HttpRequest.header (r : HttpRequest) (key : String) : String :=
  match r.headers.find? (fun p => p.1 == key) with
  | some p => p.2
  | none => ""

/-- Embeds the `gateway.Source` interface: `ParseHTTP` returns a Go-style
`([]*Message, error)` pair, and `Init` returns an optional error. -/
structure Source where
  parseHTTP : HttpRequest → List Message × Option String
  init : Ctx → Option String

/-- Embeds the `gateway.Destination` interface. -/
structure Destination where
  pushMessages : Ctx → List Message → Option String
  init : Ctx → Option String

/-- Embeds `gateway.Gateway`: one configured route. -/
structure Gateway where
  path : String := ""
  secret : String := ""
  source : Option Source := none
  destination : Option Destination := none

/-- The path a gateway resolves to in `Gateway.Init`: the explicit path when
non-empty, otherwise `"/" ++ secret`. -/
def Gateway.resolvedPath (g : Gateway) : String :=
  if g.path = "" then "/" ++ g.secret else g.path

/-- Adapter-initialization events recorded by `Gateway.initEv`, in call order. -/
inductive GwEv where
  | sourceInit
  | destinationInit
deriving DecidableEq, Repr

/-- Embeds `Gateway.Init` from `pkg/gateway/gateway.go`, instrumented with the
ordered list of adapter `Init` calls it performs.  The Go method mutates the
receiver (resolving an empty path from the secret); here the updated gateway is
returned on success. -/
def Gateway.initEv (g : Gateway) (ctx : Ctx) : List GwEv × Except String Gateway :=
  if g.path = "" ∧ g.secret = "" then
    ([], .error "no path or secret found in gateway configuration")
  else
    match g.source with
    | none => ([], .error "no source configuration found")
    | some src =>
      match src.init ctx with
      | some e => ([GwEv.sourceInit], .error ("failed initializing source: " ++ e))
      | none =>
        match g.destination with
        | none => ([GwEv.sourceInit], .error "no destination configuration found")
        | some dst =>
          match dst.init ctx with
          | some e =>
            ([GwEv.sourceInit, GwEv.destinationInit],
              .error ("failed initializing destination: " ++ e))
          | none =>
            ([GwEv.sourceInit, GwEv.destinationInit],
              .ok { g with path := g.resolvedPath })

/-- Embeds `Gateway.Init`, forgetting the instrumentation. -/
def Gateway.init (g : Gateway) (ctx : Ctx) : Except String Gateway :=
  (g.initEv ctx).2

/-- Models Go `fmt` formatting of an `error` value under the `%s` verb: a nil
error interface prints as `%!s(<nil>)`, a non-nil error prints its message. -/
def formatGoError : Option String → String
  | some e => e
  | none => "%!s(<nil>)"

/-- Outcome of one request through the gateway's HTTP handler: the response
status and body, plus a record of the messages passed to
`Destination.PushMessages` (`none` when `PushMessages` was never invoked).  A
handler body that returns without writing produces Go's default 200 status. -/
structure HandlerResult where
  status : Nat
  body : String
  pushed : Option (List Message)
deriving DecidableEq, Repr

/-- Embeds the handler function built by `Gateway.HandleHTTP`.  The Go handler
dereferences `g.source`/`g.destination` without a nil check (both are non-nil
after a successful `Init`); on a nil adapter it would panic, modelled as
`none`. -/
def Gateway.serveHTTP (g : Gateway) (r : HttpRequest) : Option HandlerResult :=
  match g.source, g.destination with
  | some src, some dst =>
    let r2 : HttpRequest := { r with ctx := SetSecret r.ctx g.secret }
    let pr := src.parseHTTP r2
    if pr.2.isSome ∨ pr.1 = [] then
      some { status := 400,
             body := "failed processing incoming request: " ++ formatGoError pr.2,
             pushed := none }
    else
      match dst.pushMessages r2.ctx pr.1 with
      | some e =>
        some { status := 400,
               body := "failed pushing notification messages: " ++ e,
               pushed := some pr.1 }
      | none => some { status := 200, body := "", pushed := some pr.1 }
  | _, _ => none

/-- Embeds `Gateway.HandleHTTP`: the (resolved) path paired with the handler. -/
def Gateway.handleHTTP (g : Gateway) : String × (HttpRequest → Option HandlerResult) :=
  (g.path, g.serveHTTP)

/-- Startup events recorded during `Service.Init`, in call order: a
`handler.Handle(pattern, ...)` registration and whether it succeeded, a
`Gateway.Init` call on the gateway at a given configuration index and whether
it succeeded, and the final `handler.Init` transport start. -/
inductive SvEv where
  | handle (pat : String) (ok : Bool)
  | gwInit (idx : Nat) (ok : Bool)
  | handlerInit
deriving DecidableEq, Repr

/-- Embeds the transport `Handler` interface of `pkg/service`: `Handle` may
fail depending on the patterns already registered (the transport's state), and
`Init` may fail starting the transport. -/
structure HandlerModel where
  handleErr : List String → String → Option String
  initErr : Option String

/-- Models `HTTP.Handle` backed by Go's `http.ServeMux`: registering a pattern
equal to one already registered makes `ServeMux.HandleFunc` panic; the
`recover` in `HTTP.Handle` converts that panic into a returned error. -/
def httpHandleErr (regs : List String) (pat : String) : Option String :=
  if pat ∈ regs then some ("pattern \"" ++ pat ++ "\" conflicts with a registered pattern")
  else none

/-- Embeds `service.Service`: the ordered gateways and the optional transport
handler. -/
structure Service where
  gateway : List Gateway
  handler : Option HandlerModel

/-- Embeds the per-gateway loop of `Service.Init`: for each gateway in
configuration order, call `Gateway.Init`, and on success register its resolved
path with the transport; the first failure aborts with a wrapped error.
Returns the ordered event trace and either the final list of registered
patterns or the error. -/
def Service.initGateways (hm : HandlerModel) (ctx : Ctx) :
    Nat → List String → List Gateway → List SvEv × Except String (List String)
  | _, regs, [] => ([], .ok regs)
  | idx, regs, g :: rest =>
    match g.init ctx with
    | .error e =>
      ([SvEv.gwInit idx false], .error ("failed initializing gateway: " ++ e))
    | .ok g2 =>
      match hm.handleErr regs g2.path with
      | some e =>
        ([SvEv.gwInit idx true, SvEv.handle g2.path false],
          .error ("failed setting up request handler for gateway: " ++ e))
      | none =>
        let next := Service.initGateways hm ctx (idx + 1) (regs ++ [g2.path]) rest
        (SvEv.gwInit idx true :: SvEv.handle g2.path true :: next.1, next.2)

/-- Embeds `Service.Init` from `pkg/service`, instrumented with the ordered
event trace: validate that a handler and at least one gateway are configured,
register the `/_health` endpoint, initialize and register every gateway in
order, and initialize the transport last.  On success, returns the list of
registered patterns. -/
def Service.init (s : Service) (ctx : Ctx) : List SvEv × Except String (List String) :=
  match s.handler with
  | none => ([], .error "no request handler configuration found")
  | some hm =>
    if s.gateway.isEmpty then
      ([], .error "no gateway configuration found")
    else
      match hm.handleErr [] "/_health" with
      | some e =>
        ([SvEv.handle "/_health" false],
          .error ("failed setting up request handler for health-checks: " ++ e))
      | none =>
        let next := Service.initGateways hm ctx 0 ["/_health"] s.gateway
        match next.2 with
        | .error e => (SvEv.handle "/_health" true :: next.1, .error e)
        | .ok regs =>
          match hm.initErr with
          | some e =>
            (SvEv.handle "/_health" true :: next.1,
              .error ("failed initializing request handler: " ++ e))
          | none =>
            ((SvEv.handle "/_health" true :: next.1) ++ [SvEv.handlerInit], .ok regs)

/-- A generic TOML value tree, as seen by the `UnmarshalTOML` methods: the Go
code receives `any` and type-asserts against `string`, `map[string]any` and
`[]map[string]any`; other Go values are collapsed into `num`. -/
inductive Toml where
  | str (s : String)
  | table (kvs : List (String × Toml))
  | tables (rows : List (List (String × Toml)))
  | num (n : Int)

/-- Lookup of a key in a configuration table, as `conf[key]`. -/
def tomlGet (kvs : List (String × Toml)) (key : String) : Option Toml :=
  match kvs.find? (fun p => p.1 == key) with
  | some p => some p.2
  | none => none

/-- Embeds the Go pattern `v, ok := conf[key].(string)`: some only when the key
is present with a string value. -/
def tomlGetStr (kvs : List (String × Toml)) (key : String) : Option String :=
  match tomlGet kvs key with
  | some (Toml.str s) => some s
  | _ => none

/-- A registered source constructor: `make` embeds the registered
`func() Source`, and `fromToml` is `some` exactly when the constructed source
implements the `tomlUnmarshaler` interface, embedding its `UnmarshalTOML`. -/
structure SourceCtor where
  make : Source
  fromToml : Option (Source → Toml → Except String Source)

/-- A registered destination constructor; see `SourceCtor`. -/
structure DestinationCtor where
  make : Destination
  fromToml : Option (Destination → Toml → Except String Destination)

/-- Embeds the `knownSources` registry map as an association list. -/
abbrev SourceRegistry := List (String × SourceCtor)

/-- Embeds the `knownDestinations` registry map as an association list. -/
abbrev DestinationRegistry := List (String × DestinationCtor)

/-- Registry lookup, as `knownSources[name]`. -/
def regFind {α : Type} (reg : List (String × α)) (name : String) : Option α :=
  match reg.find? (fun p => p.1 == name) with
  | some p => some p.2
  | none => none

/-- Embeds the `secret`/`path` assignments at the top of
`Gateway.UnmarshalTOML`: each key is applied only when present with a string
value. -/
def Gateway.applyPathSecret (g : Gateway) (conf : List (String × Toml)) : Gateway :=
  { g with secret := (tomlGetStr conf "secret").getD g.secret,
           path := (tomlGetStr conf "path").getD g.path }

/-- Embeds the `source` section of `Gateway.UnmarshalTOML`: a present table
must carry a known, non-empty `type`; the constructed source may consume an
adapter-specific sub-table.  An absent or non-table section is skipped. -/
def Gateway.unmarshalSource (sreg : SourceRegistry) (g : Gateway)
    (conf : List (String × Toml)) : Except String Gateway :=
  match tomlGet conf "source" with
  | some (Toml.table v) =>
    match tomlGetStr v "type" with
    | none => .error "empty or missing source type in gateway configuration"
    | some name =>
      if name = "" then .error "empty or missing source type in gateway configuration"
      else
        match regFind sreg name with
        | none => .error ("unknown source type '" ++ name ++ "' given in gateway configuration")
        | some ctor =>
          match ctor.fromToml with
          | none => .ok { g with source := some ctor.make }
          | some f =>
            match tomlGet v name with
            | some (Toml.table sub) =>
              match f ctor.make (Toml.table sub) with
              | .error e =>
                .error ("failed parsing configuration for source '" ++ name ++ "': " ++ e)
              | .ok src => .ok { g with source := some src }
            | _ => .ok { g with source := some ctor.make }
  | _ => .ok g

/-- Embeds the `destination` section of `Gateway.UnmarshalTOML`; mirrors
`Gateway.unmarshalSource`. -/
def Gateway.unmarshalDestination (dreg : DestinationRegistry) (g : Gateway)
    (conf : List (String × Toml)) : Except String Gateway :=
  match tomlGet conf "destination" with
  | some (Toml.table v) =>
    match tomlGetStr v "type" with
    | none => .error "empty or missing destination type in gateway configuration"
    | some name =>
      if name = "" then .error "empty or missing destination type in gateway configuration"
      else
        match regFind dreg name with
        | none => .error ("unknown destination type '" ++ name ++ "' given in gateway configuration")
        | some ctor =>
          match ctor.fromToml with
          | none => .ok { g with destination := some ctor.make }
          | some f =>
            match tomlGet v name with
            | some (Toml.table sub) =>
              match f ctor.make (Toml.table sub) with
              | .error e =>
                .error ("failed parsing configuration for destination '" ++ name ++ "': " ++ e)
              | .ok dst => .ok { g with destination := some dst }
            | _ => .ok { g with destination := some ctor.make }
  | _ => .ok g

/-- Embeds `Gateway.UnmarshalTOML`: the data must be a table; `secret` and
`path` are bound first, then the `source` section, then the `destination`
section. -/
def Gateway.unmarshalTOML (sreg : SourceRegistry) (dreg : DestinationRegistry)
    (g : Gateway) (data : Toml) : Except String Gateway :=
  match data with
  | Toml.table conf =>
    match Gateway.unmarshalSource sreg (g.applyPathSecret conf) conf with
    | .error e => .error e
    | .ok g2 => Gateway.unmarshalDestination dreg g2 conf
  | _ => .error "no valid configuration keys found"

/-- Embeds the `Payload` struct of the Cloudflare Notifications source. -/
structure Payload where
  text : String
deriving DecidableEq, Repr

/-- The body half of `Notifications.ParseHTTP`: read the body (reading a fully
materialized body cannot fail), decode it, and build one message from the
`text` field.  `decode` models `json.Unmarshal` into `Payload`, an external
stdlib collaborator. -/
def notificationsParseBody (decode : String → Except String Payload)
    (body : String) : List Message × Option String :=
  match decode body with
  | .error e => ([], some ("failed parsing request: " ++ e))
  | .ok payload =>
    if payload.text = "" then ([], some "no message content found")
    else ([{ content := payload.text }], none)

/-- Embeds `Notifications.ParseHTTP` from the Cloudflare Notifications source:
when a non-empty secret is carried by the request context, the
`cf-webhook-auth` header must be present and equal to it; with an empty secret
the authentication check is skipped entirely. -/
def Notifications.parseHTTP (decode : String → Except String Payload)
    (r : HttpRequest) : List Message × Option String :=
  if GetSecret r.ctx ≠ "" then
    if r.header "cf-webhook-auth" = "" then
      ([], some "cf-webhook-auth header not found")
    else if r.header "cf-webhook-auth" ≠ GetSecret r.ctx then
      ([], some "invalid authentication token")
    else notificationsParseBody decode r.body
  else notificationsParseBody decode r.body

/-! Concrete adapters and gateways used by the witness theorems. -/

/-- A source whose `ParseHTTP` always yields one message and whose `Init`
succeeds. -/
def okSource : Source :=
  { parseHTTP := fun _ => ([{ content := "m" }], none), init := fun _ => none }

/-- A destination whose `PushMessages` and `Init` always succeed. -/
def okDestination : Destination :=
  { pushMessages := fun _ _ => none, init := fun _ => none }

/-- A gateway configured with only a secret. -/
def gwSecretOnly : Gateway :=
  { path := "", secret := "1234", source := some okSource, destination := some okDestination }

/-- The concrete transport model: ServeMux-style duplicate rejection, and a
transport `Init` that succeeds. -/
def hmHTTP : HandlerModel := { handleErr := httpHandleErr, initErr := none }

/-- A gateway at explicit path `/a`. -/
def gwA : Gateway :=
  { path := "/a", secret := "s", source := some okSource, destination := some okDestination }

/-- A service with one gateway and the concrete transport model. -/
def svA : Service := { gateway := [gwA], handler := some hmHTTP }

/-- Projects the gateway index out of a `gwInit` startup event. -/
def svGwIdx : SvEv → Option Nat
  | SvEv.gwInit i _ => some i
  | _ => none

/-! Helper lemmas. -/

/-- A successful `Gateway.Init` returns the gateway unchanged except for the
resolved path. -/
theorem Gateway.init_ok {g g2 : Gateway} {ctx : Ctx} (h : g.init ctx = .ok g2) :
    g2 = { g with path := g.resolvedPath } := by
  unfold Gateway.init Gateway.initEv at h
  by_cases hps : g.path = "" ∧ g.secret = ""
  · simp [hps] at h
  · rcases hs : g.source with _ | src
    · simp [hps, hs] at h
    · rcases hsi : src.init ctx with _ | e
      · rcases hd : g.destination with _ | dst
        · simp [hps, hs, hsi, hd] at h
        · rcases hdi : dst.init ctx with _ | e2
          · simp [hps, hs, hsi, hd, hdi] at h
            exact h.symm
          · simp [hps, hs, hsi, hd, hdi] at h
      · simp [hps, hs, hsi] at h

/-- C6: `GetSecret` of `SetSecret` returns the stored secret, and `GetSecret`
returns the empty string on a context chain that never had `SetSecret` applied
(no entry under the private `secretKey`). -/
theorem secret_roundtrip (ctx : Ctx) (s : String) :
    GetSecret (SetSecret ctx s) = s ∧
    ((∀ e ∈ ctx, e.1 ≠ CtxKey.secretKey) → GetSecret ctx = "") := by
  constructor
  · simp [GetSecret, SetSecret, ctxValue, List.find?]
  · intro h
    have hf : ctx.find? (fun p => p.1 == CtxKey.secretKey) = none := by
      rw [List.find?_eq_none]
      intro x hx
      simpa using h x hx
    simp [GetSecret, ctxValue, hf]

/-- Witness for C6 at the empty context and secret `"1234"`. -/
theorem secret_roundtrip_witness :
    GetSecret (SetSecret [] "1234") = "1234" ∧ GetSecret [] = "" := by
  refine ⟨(secret_roundtrip [] "1234").1, (secret_roundtrip [] "1234").2 ?_⟩
  intro e he
  cases he

/-- C3: `Gateway.Init` fails with a configuration error when path and secret
are both empty; otherwise it fails when the source (resp. destination) is
unset, propagates the first adapter `Init` error annotated with the failing
stage, and calls `source.Init` before `destination.Init` (the recorded call
trace is always a prefix of `[sourceInit, destinationInit]`, and the
destination is only initialized after the source's `Init` succeeded). -/
theorem gateway_init_contract (g : Gateway) (ctx : Ctx) :
    (g.path = "" → g.secret = "" →
      g.init ctx = .error "no path or secret found in gateway configuration") ∧
    (¬(g.path = "" ∧ g.secret = "") → g.source = none →
      g.init ctx = .error "no source configuration found") ∧
    (∀ src e, ¬(g.path = "" ∧ g.secret = "") → g.source = some src →
      src.init ctx = some e →
      g.init ctx = .error ("failed initializing source: " ++ e)) ∧
    (∀ src, ¬(g.path = "" ∧ g.secret = "") → g.source = some src →
      src.init ctx = none → g.destination = none →
      g.init ctx = .error "no destination configuration found") ∧
    (∀ src dst e, ¬(g.path = "" ∧ g.secret = "") → g.source = some src →
      src.init ctx = none → g.destination = some dst → dst.init ctx = some e →
      g.init ctx = .error ("failed initializing destination: " ++ e)) ∧
    ((g.initEv ctx).1 = [] ∨ (g.initEv ctx).1 = [GwEv.sourceInit] ∨
      (g.initEv ctx).1 = [GwEv.sourceInit, GwEv.destinationInit]) ∧
    (∀ src, g.source = some src → GwEv.destinationInit ∈ (g.initEv ctx).1 →
      src.init ctx = none) := by
  refine ⟨?_, ?_, ?_, ?_, ?_, ?_, ?_⟩
  · intro hp hsec
    simp [Gateway.init, Gateway.initEv, hp, hsec]
  · intro hps hs
    simp [Gateway.init, Gateway.initEv, hps, hs]
  · intro src e hps hs hsi
    simp [Gateway.init, Gateway.initEv, hps, hs, hsi]
  · intro src hps hs hsi hd
    simp [Gateway.init, Gateway.initEv, hps, hs, hsi, hd]
  · intro src dst e hps hs hsi hd hdi
    simp [Gateway.init, Gateway.initEv, hps, hs, hsi, hd, hdi]
  · by_cases hps : g.path = "" ∧ g.secret = ""
    · simp [Gateway.initEv, hps]
    · rcases hs : g.source with _ | src
      · simp [Gateway.initEv, hps, hs]
      · rcases hsi : src.init ctx with _ | e
        · rcases hd : g.destination with _ | dst
          · simp [Gateway.initEv, hps, hs, hsi, hd]
          · rcases hdi : dst.init ctx with _ | e2 <;>
              simp [Gateway.initEv, hps, hs, hsi, hd, hdi]
        · simp [Gateway.initEv, hps, hs, hsi]
  · intro src hs hmem
    rcases hsi : src.init ctx with _ | e
    · rfl
    · exfalso
      by_cases hps : g.path = "" ∧ g.secret = ""
      · simp [Gateway.initEv, hps] at hmem
      · simp [Gateway.initEv, hps, hs, hsi] at hmem

/-- Witness for C3 at a gateway with empty path and secret. -/
theorem gateway_init_contract_witness :
    Gateway.init { path := "", secret := "", source := none, destination := none } [] =
      .error "no path or secret found in gateway configuration" :=
  (gateway_init_contract { path := "", secret := "", source := none, destination := none } []).1
    rfl rfl

/-- C5: after a successful `Init`, a gateway configured with an empty path
resolves its path to `"/" ++ secret`, and an explicitly configured path is
kept unchanged. -/
theorem gateway_resolved_path (g g2 : Gateway) (ctx : Ctx) (h : g.init ctx = .ok g2) :
    (g.path = "" → g2.path = "/" ++ g.secret) ∧ (g.path ≠ "" → g2.path = g.path) := by
  have he := Gateway.init_ok h
  subst he
  constructor
  · intro hp
    simp [Gateway.resolvedPath, hp]
  · intro hp
    simp [Gateway.resolvedPath, hp]

/-- Witness for C5 at a gateway with empty path and secret `"1234"`. -/
theorem gateway_resolved_path_witness :
    ({ gwSecretOnly with path := "/1234" } : Gateway).path = "/" ++ "1234" :=
  (gateway_resolved_path gwSecretOnly { gwSecretOnly with path := "/1234" } [] rfl).1 rfl

/-- C1: for every request through the gateway handler, a `ParseHTTP` error or
an empty message list yields HTTP 400 with a descriptive body and
`PushMessages` is never invoked; a non-empty parse followed by a failing
`PushMessages` yields HTTP 400; otherwise the response is HTTP 200 with an
empty body. -/
theorem gateway_handle_http_status (g : Gateway) (src : Source) (dst : Destination)
    (r r2 : HttpRequest) (pr : List Message × Option String)
    (hs : g.source = some src) (hd : g.destination = some dst)
    (hr2 : r2 = { r with ctx := SetSecret r.ctx g.secret })
    (hpr : src.parseHTTP r2 = pr) :
    (pr.2 ≠ none ∨ pr.1 = [] →
      g.serveHTTP r =
        some ⟨400, "failed processing incoming request: " ++ formatGoError pr.2, none⟩) ∧
    (∀ e, pr.2 = none → pr.1 ≠ [] → dst.pushMessages r2.ctx pr.1 = some e →
      g.serveHTTP r =
        some ⟨400, "failed pushing notification messages: " ++ e, some pr.1⟩) ∧
    (pr.2 = none → pr.1 ≠ [] → dst.pushMessages r2.ctx pr.1 = none →
      g.serveHTTP r = some { status := 200, body := "", pushed := some pr.1 }) := by
  subst hpr
  subst hr2
  refine ⟨?_, ?_, ?_⟩
  · intro h
    have hc : ((src.parseHTTP { r with ctx := SetSecret r.ctx g.secret }).2.isSome = true) ∨
        (src.parseHTTP { r with ctx := SetSecret r.ctx g.secret }).1 = [] := by
      rcases h with h | h
      · exact Or.inl (Option.isSome_iff_ne_none.mpr h)
      · exact Or.inr h
    simp only [Gateway.serveHTTP, hs, hd]
    rw [if_pos hc]
  · intro e h1 h2 h3
    have hc : ¬(((src.parseHTTP { r with ctx := SetSecret r.ctx g.secret }).2.isSome = true) ∨
        (src.parseHTTP { r with ctx := SetSecret r.ctx g.secret }).1 = []) := by
      simp [h1, h2]
    simp only [Gateway.serveHTTP, hs, hd]
    rw [if_neg hc, h3]
  · intro h1 h2 h3
    have hc : ¬(((src.parseHTTP { r with ctx := SetSecret r.ctx g.secret }).2.isSome = true) ∨
        (src.parseHTTP { r with ctx := SetSecret r.ctx g.secret }).1 = []) := by
      simp [h1, h2]
    simp only [Gateway.serveHTTP, hs, hd]
    rw [if_neg hc, h3]

/-- Witness for C1: a gateway whose source succeeds with one message and whose
destination accepts it responds 200. -/
theorem gateway_handle_http_status_witness :
    Gateway.serveHTTP gwSecretOnly { ctx := [], headers := [], body := "" } =
      some { status := 200, body := "", pushed := some [{ content := "m" }] } :=
  (gateway_handle_http_status gwSecretOnly okSource okDestination
      { ctx := [], headers := [], body := "" }
      { ctx := SetSecret [] "1234", headers := [], body := "" }
      ([{ content := "m" }], none) rfl rfl rfl rfl).2.2 rfl (by simp) rfl

/-- C9: when `ParseHTTP` returns an empty message list and a nil error, the
400 body is built by formatting the nil error, producing the literal text
`failed processing incoming request: %!s(<nil>)`. -/
theorem empty_messages_nil_error_body (g : Gateway) (src : Source) (dst : Destination)
    (r : HttpRequest) (hs : g.source = some src) (hd : g.destination = some dst)
    (hp : src.parseHTTP { r with ctx := SetSecret r.ctx g.secret } = ([], none)) :
    g.serveHTTP r =
      some ⟨400, "failed processing incoming request: %!s(<nil>)", none⟩ := by
  simp only [Gateway.serveHTTP, hs, hd, hp]
  rfl

/-- Witness for C9: a source that returns no messages and no error. -/
theorem empty_messages_nil_error_body_witness :
    Gateway.serveHTTP
      { gwSecretOnly with source := some ⟨fun _ => ([], none), fun _ => none⟩ }
      { ctx := [], headers := [], body := "" } =
      some ⟨400, "failed processing incoming request: %!s(<nil>)", none⟩ :=
  empty_messages_nil_error_body _ _ okDestination
    { ctx := [], headers := [], body := "" } rfl rfl rfl

/-- Two strings differ when one starts with a character the other does not. -/
theorem head_append_ne (p t e0 : String) (c : Char)
    (hp : p.data.head? = some c) (ht : t.data.head? ≠ some c) : p ++ e0 ≠ t := by
  intro h
  have hd := congrArg (fun s => s.data.head?) h
  simp only [String.data_append] at hd
  rw [List.head?_append, hp] at hd
  simp at hd
  exact ht hd.symm

/-- C8: a source adapter seeing an empty secret in the request context skips
the authentication check: the Cloudflare Notifications `ParseHTTP` behaves as
pure body processing — independent of the `cf-webhook-auth` header — and never
returns an authentication error. -/
theorem notifications_empty_secret_no_auth (decode : String → Except String Payload)
    (r : HttpRequest) (h : GetSecret r.ctx = "") :
    Notifications.parseHTTP decode r = notificationsParseBody decode r.body ∧
    (∀ e, (Notifications.parseHTTP decode r).2 = some e →
      e ≠ "cf-webhook-auth header not found" ∧ e ≠ "invalid authentication token") := by
  have h1 : Notifications.parseHTTP decode r = notificationsParseBody decode r.body := by
    simp [Notifications.parseHTTP, h]
  refine ⟨h1, ?_⟩
  intro e he
  rw [h1] at he
  unfold notificationsParseBody at he
  rcases hdec : decode r.body with e0 | payload
  · rw [hdec] at he
    simp at he
    subst he
    exact ⟨head_append_ne _ _ _ 'f' rfl (by decide),
           head_append_ne _ _ _ 'f' rfl (by decide)⟩
  · rw [hdec] at he
    by_cases ht : payload.text = ""
    · simp [ht] at he
      subst he
      exact ⟨by decide, by decide⟩
    · simp [ht] at he

/-- Witness for C8: empty secret, a stale auth header, and a decoder yielding
content. -/
theorem notifications_empty_secret_no_auth_witness :
    Notifications.parseHTTP (fun _ => .ok ⟨"hello"⟩)
        { ctx := [], headers := [("cf-webhook-auth", "zzz")], body := "b" } =
      notificationsParseBody (fun _ => .ok ⟨"hello"⟩) "b" ∧
    (∀ e, (Notifications.parseHTTP (fun _ => .ok ⟨"hello"⟩)
        { ctx := [], headers := [("cf-webhook-auth", "zzz")], body := "b" }).2 = some e →
      e ≠ "cf-webhook-auth header not found" ∧ e ≠ "invalid authentication token") :=
  notifications_empty_secret_no_auth _ _ rfl

/-- C7: a configured route entry naming an unregistered source or destination
type fails configuration binding with an error naming the offending type
string. -/
theorem unmarshal_unknown_type (sreg : SourceRegistry) (dreg : DestinationRegistry)
    (g : Gateway) (conf v : List (String × Toml)) (name : String) :
    (tomlGet conf "source" = some (Toml.table v) → tomlGetStr v "type" = some name →
      name ≠ "" → regFind sreg name = none →
      Gateway.unmarshalTOML sreg dreg g (Toml.table conf) =
        .error ("unknown source type '" ++ name ++ "' given in gateway configuration")) ∧
    (∀ g1, tomlGet conf "destination" = some (Toml.table v) →
      tomlGetStr v "type" = some name → name ≠ "" → regFind dreg name = none →
      Gateway.unmarshalDestination dreg g1 conf =
        .error ("unknown destination type '" ++ name ++ "' given in gateway configuration")) ∧
    (∀ g2, Gateway.unmarshalSource sreg (g.applyPathSecret conf) conf = .ok g2 →
      tomlGet conf "destination" = some (Toml.table v) →
      tomlGetStr v "type" = some name → name ≠ "" → regFind dreg name = none →
      Gateway.unmarshalTOML sreg dreg g (Toml.table conf) =
        .error ("unknown destination type '" ++ name ++ "' given in gateway configuration")) := by
  refine ⟨?_, ?_, ?_⟩
  · intro h1 h2 h3 h4
    simp [Gateway.unmarshalTOML, Gateway.unmarshalSource, h1, h2, h3, h4]
  · intro g1 h1 h2 h3 h4
    simp [Gateway.unmarshalDestination, h1, h2, h3, h4]
  · intro g2 hok h1 h2 h3 h4
    simp [Gateway.unmarshalTOML, hok, Gateway.unmarshalDestination, h1, h2, h3, h4]

/-- Witness for C7: `source.type = "unknown-vendor"` against empty registries. -/
theorem unmarshal_unknown_type_witness :
    Gateway.unmarshalTOML [] [] { path := "", secret := "", source := none, destination := none }
        (Toml.table [("source", Toml.table [("type", Toml.str "unknown-vendor")])]) =
      .error ("unknown source type '" ++ "unknown-vendor" ++ "' given in gateway configuration") :=
  (unmarshal_unknown_type [] [] { path := "", secret := "", source := none, destination := none }
      [("source", Toml.table [("type", Toml.str "unknown-vendor")])]
      [("type", Toml.str "unknown-vendor")] "unknown-vendor").1 rfl rfl (by decide) rfl

/-- C10: `Gateway.UnmarshalTOML` succeeds when the `source` or `destination`
section is absent, leaving that adapter unset; binding never rejects an absent
section, and a wholly absent adapter is detected later by `Gateway.Init` as a
missing source configuration error. -/
theorem unmarshal_absent_sections (sreg : SourceRegistry) (dreg : DestinationRegistry)
    (g : Gateway) (conf : List (String × Toml)) (ctx : Ctx) :
    (∀ g1, tomlGet conf "source" = none → Gateway.unmarshalSource sreg g1 conf = .ok g1) ∧
    (∀ g1, tomlGet conf "destination" = none →
      Gateway.unmarshalDestination dreg g1 conf = .ok g1) ∧
    (tomlGet conf "source" = none → tomlGet conf "destination" = none →
      Gateway.unmarshalTOML sreg dreg g (Toml.table conf) = .ok (g.applyPathSecret conf)) ∧
    ((g.applyPathSecret conf).source = g.source) ∧
    ((g.applyPathSecret conf).destination = g.destination) ∧
    (g.source = none →
      ¬((g.applyPathSecret conf).path = "" ∧ (g.applyPathSecret conf).secret = "") →
      (g.applyPathSecret conf).init ctx = .error "no source configuration found") := by
  refine ⟨?_, ?_, ?_, rfl, rfl, ?_⟩
  · intro g1 h
    simp [Gateway.unmarshalSource, h]
  · intro g1 h
    simp [Gateway.unmarshalDestination, h]
  · intro hs hd
    simp [Gateway.unmarshalTOML, Gateway.unmarshalSource, Gateway.unmarshalDestination, hs, hd]
  · intro hsrc hps
    have h2 : (g.applyPathSecret conf).source = none := hsrc
    simp [Gateway.init, Gateway.initEv, hps, h2]

/-- Witness for C10: a configuration carrying only a secret binds successfully
and the resulting gateway fails `Init` for the missing source. -/
theorem unmarshal_absent_sections_witness :
    Gateway.unmarshalTOML [] [] { path := "", secret := "", source := none, destination := none }
        (Toml.table [("secret", Toml.str "1234")]) =
      .ok (Gateway.applyPathSecret
        { path := "", secret := "", source := none, destination := none }
        [("secret", Toml.str "1234")]) ∧
    Gateway.init (Gateway.applyPathSecret
        { path := "", secret := "", source := none, destination := none }
        [("secret", Toml.str "1234")]) [] =
      .error "no source configuration found" :=
  ⟨(unmarshal_absent_sections [] []
      { path := "", secret := "", source := none, destination := none }
      [("secret", Toml.str "1234")] []).2.2.1 rfl rfl,
   (unmarshal_absent_sections [] []
      { path := "", secret := "", source := none, destination := none }
      [("secret", Toml.str "1234")] []).2.2.2.2.2 rfl (by decide)⟩

/-! Lemmas about the per-gateway startup loop. -/

/-- The gateway loop never emits the transport-initialization event. -/
theorem initGateways_no_handlerInit (hm : HandlerModel) (ctx : Ctx) :
    ∀ (gws : List Gateway) (idx : Nat) (regs : List String),
      SvEv.handlerInit ∉ (Service.initGateways hm ctx idx regs gws).1 := by
  intro gws
  induction gws with
  | nil => intro idx regs; simp [Service.initGateways]
  | cons g rest ih =>
    intro idx regs
    rcases hi : g.init ctx with e | g2
    · simp [Service.initGateways, hi]
    · rcases hh : hm.handleErr regs g2.path with _ | e
      · simp [Service.initGateways, hi, hh]
        exact ih _ _
      · simp [Service.initGateways, hi, hh]

/-- On success, the gateway loop extends the registered patterns with each
gateway's resolved path, in configuration order. -/
theorem initGateways_ok (hm : HandlerModel) (ctx : Ctx) :
    ∀ (gws : List Gateway) (idx : Nat) (regs regs2 : List String),
      (Service.initGateways hm ctx idx regs gws).2 = .ok regs2 →
      regs2 = regs ++ gws.map Gateway.resolvedPath := by
  intro gws
  induction gws with
  | nil =>
    intro idx regs regs2 h
    simp [Service.initGateways] at h
    simp [h.symm]
  | cons g rest ih =>
    intro idx regs regs2 h
    rcases hi : g.init ctx with e | g2
    · simp [Service.initGateways, hi] at h
    · rcases hh : hm.handleErr regs g2.path with _ | e
      · simp only [Service.initGateways, hi, hh] at h
        have h1 := ih (idx + 1) (regs ++ [g2.path]) regs2 h
        have hp : g2.path = g.resolvedPath := by
          rw [Gateway.init_ok hi]
        rw [h1, hp]
        simp
      · simp [Service.initGateways, hi, hh] at h

/-- With the ServeMux-backed transport, the gateway loop preserves freedom
from duplicate registered patterns. -/
theorem initGateways_nodup (hm : HandlerModel) (ctx : Ctx)
    (hspec : hm.handleErr = httpHandleErr) :
    ∀ (gws : List Gateway) (idx : Nat) (regs regs2 : List String), regs.Nodup →
      (Service.initGateways hm ctx idx regs gws).2 = .ok regs2 → regs2.Nodup := by
  intro gws
  induction gws with
  | nil =>
    intro idx regs regs2 hnd h
    simp [Service.initGateways] at h
    exact h ▸ hnd
  | cons g rest ih =>
    intro idx regs regs2 hnd h
    rcases hi : g.init ctx with e | g2
    · simp [Service.initGateways, hi] at h
    · rcases hh : hm.handleErr regs g2.path with _ | e
      · simp only [Service.initGateways, hi, hh] at h
        have hmem : g2.path ∉ regs := by
          intro hmem
          rw [hspec] at hh
          simp [httpHandleErr, hmem] at hh
        refine ih (idx + 1) (regs ++ [g2.path]) regs2 ?_ h
        simp [List.nodup_append, hnd]
        exact hmem
      · simp [Service.initGateways, hi, hh] at h

/-- A recorded gateway-initialization failure forces the loop to abort with
that gateway's wrapped error. -/
theorem initGateways_fail (hm : HandlerModel) (ctx : Ctx) :
    ∀ (gws : List Gateway) (idx : Nat) (regs : List String) (i : Nat),
      SvEv.gwInit i false ∈ (Service.initGateways hm ctx idx regs gws).1 →
      ∃ e, (Service.initGateways hm ctx idx regs gws).2 =
        .error ("failed initializing gateway: " ++ e) := by
  intro gws
  induction gws with
  | nil => intro idx regs i h; simp [Service.initGateways] at h
  | cons g rest ih =>
    intro idx regs i h
    rcases hi : g.init ctx with e | g2
    · exact ⟨e, by simp [Service.initGateways, hi]⟩
    · rcases hh : hm.handleErr regs g2.path with _ | e
      · simp only [Service.initGateways, hi, hh, List.mem_cons] at h
        rcases h with h | h | h
        · cases h
        · cases h
        · simpa [Service.initGateways, hi, hh] using ih (idx + 1) (regs ++ [g2.path]) i h
      · simp [Service.initGateways, hi, hh] at h

/-- The gateway indices recorded by the loop are consecutive, starting at the
given index: gateways are initialized in configuration order. -/
theorem initGateways_idx (hm : HandlerModel) (ctx : Ctx) :
    ∀ (gws : List Gateway) (idx : Nat) (regs : List String),
      ∃ m, ((Service.initGateways hm ctx idx regs gws).1).filterMap svGwIdx =
        List.range' idx m := by
  intro gws
  induction gws with
  | nil => intro idx regs; exact ⟨0, by simp [Service.initGateways]⟩
  | cons g rest ih =>
    intro idx regs
    rcases hi : g.init ctx with e | g2
    · exact ⟨1, by simp [Service.initGateways, hi, svGwIdx]⟩
    · rcases hh : hm.handleErr regs g2.path with _ | e
      · obtain ⟨m, hm2⟩ := ih (idx + 1) (regs ++ [g2.path])
        refine ⟨m + 1, ?_⟩
        simp only [Service.initGateways, hi, hh, List.filterMap_cons, svGwIdx, hm2]
        rw [List.range'_succ]
      · exact ⟨1, by simp [Service.initGateways, hi, hh, svGwIdx]⟩

/-- In the gateway loop's trace, the first event is never a registration, and
every registration event directly follows the successful initialization of the
gateway being registered. -/
theorem initGateways_handle_after (hm : HandlerModel) (ctx : Ctx) :
    ∀ (gws : List Gateway) (idx : Nat) (regs : List String),
      (∀ pat b, ((Service.initGateways hm ctx idx regs gws).1).head? ≠
        some (SvEv.handle pat b)) ∧
      (∀ k pat b,
        ((Service.initGateways hm ctx idx regs gws).1)[k + 1]? =
          some (SvEv.handle pat b) →
        ∃ i, ((Service.initGateways hm ctx idx regs gws).1)[k]? =
          some (SvEv.gwInit i true)) := by
  intro gws
  induction gws with
  | nil =>
    intro idx regs
    constructor
    · intro pat b
      simp [Service.initGateways]
    · intro k pat b h
      simp [Service.initGateways] at h
  | cons g rest ih =>
    intro idx regs
    rcases hi : g.init ctx with e | g2
    · constructor
      · intro pat b
        simp [Service.initGateways, hi]
      · intro k pat b h
        simp [Service.initGateways, hi] at h
    · rcases hh : hm.handleErr regs g2.path with _ | e
      · obtain ⟨ih1, ih2⟩ := ih (idx + 1) (regs ++ [g2.path])
        constructor
        · intro pat b
          simp [Service.initGateways, hi, hh]
        · intro k pat b h
          simp only [Service.initGateways, hi, hh] at h ⊢
          match k with
          | 0 => exact ⟨idx, rfl⟩
          | 1 =>
            simp only [List.getElem?_cons_succ] at h
            rw [← List.head?_eq_getElem?] at h
            exact absurd h (ih1 pat b)
          | Nat.succ (Nat.succ k2) =>
            simp only [List.getElem?_cons_succ] at h ⊢
            exact ih2 k2 pat b h
      · constructor
        · intro pat b
          simp [Service.initGateways, hi, hh]
        · intro k pat b h
          simp only [Service.initGateways, hi, hh] at h ⊢
          match k with
          | 0 => exact ⟨idx, rfl⟩
          | Nat.succ k2 =>
            simp only [List.getElem?_cons_succ] at h
            simp at h

/-- Appending a non-registration event preserves the property that every
registration event directly follows a successful gateway initialization. -/
theorem handle_after_append (tr : List SvEv) (x : SvEv)
    (hx : ∀ pat b, x ≠ SvEv.handle pat b)
    (h2 : ∀ k pat b, tr[k + 1]? = some (SvEv.handle pat b) →
      ∃ i, tr[k]? = some (SvEv.gwInit i true)) :
    ∀ k pat b, (tr ++ [x])[k + 1]? = some (SvEv.handle pat b) →
      ∃ i, (tr ++ [x])[k]? = some (SvEv.gwInit i true) := by
  intro k pat b h
  by_cases hk : k + 1 < tr.length
  · rw [List.getElem?_append, if_pos hk] at h
    obtain ⟨i, hi⟩ := h2 k pat b h
    refine ⟨i, ?_⟩
    rw [List.getElem?_append, if_pos (by omega)]
    exact hi
  · rw [List.getElem?_append, if_neg hk] at h
    rcases he : k + 1 - tr.length with _ | k2
    · rw [he] at h
      simp at h
      exact absurd h (hx pat b)
    · rw [he] at h
      simp at h

/-- Prepending an event to a trace whose head is not a registration preserves
the property that registrations directly follow successful gateway
initializations. -/
theorem handle_after_cons (e0 : SvEv) (tl : List SvEv)
    (hhead : ∀ pat b, tl.head? ≠ some (SvEv.handle pat b))
    (h2 : ∀ k pat b, tl[k + 1]? = some (SvEv.handle pat b) →
      ∃ i, tl[k]? = some (SvEv.gwInit i true)) :
    ∀ k pat b, (e0 :: tl)[k + 1]? = some (SvEv.handle pat b) →
      ∃ i, (e0 :: tl)[k]? = some (SvEv.gwInit i true) := by
  intro k pat b h
  match k with
  | 0 =>
    rw [List.getElem?_cons_succ, ← List.head?_eq_getElem?] at h
    exact absurd h (hhead pat b)
  | Nat.succ k2 =>
    simp only [List.getElem?_cons_succ] at h ⊢
    exact h2 k2 pat b h

/-- Exhaustive characterization of `Service.Init`: exactly one of the six
startup outcomes occurs, each with its trace and result. -/
theorem Service.init_cases (s : Service) (ctx : Ctx) :
    (s.handler = none ∧
      s.init ctx = ([], .error "no request handler configuration found")) ∨
    (∃ hm, s.handler = some hm ∧ s.gateway = [] ∧
      s.init ctx = ([], .error "no gateway configuration found")) ∨
    (∃ hm e, s.handler = some hm ∧ s.gateway ≠ [] ∧
      hm.handleErr [] "/_health" = some e ∧
      s.init ctx = ([SvEv.handle "/_health" false],
        .error ("failed setting up request handler for health-checks: " ++ e))) ∨
    (∃ hm e, s.handler = some hm ∧ s.gateway ≠ [] ∧
      hm.handleErr [] "/_health" = none ∧
      (Service.initGateways hm ctx 0 ["/_health"] s.gateway).2 = .error e ∧
      s.init ctx = (SvEv.handle "/_health" true ::
        (Service.initGateways hm ctx 0 ["/_health"] s.gateway).1, .error e)) ∨
    (∃ hm regs e, s.handler = some hm ∧ s.gateway ≠ [] ∧
      hm.handleErr [] "/_health" = none ∧
      (Service.initGateways hm ctx 0 ["/_health"] s.gateway).2 = .ok regs ∧
      hm.initErr = some e ∧
      s.init ctx = (SvEv.handle "/_health" true ::
        (Service.initGateways hm ctx 0 ["/_health"] s.gateway).1,
        .error ("failed initializing request handler: " ++ e))) ∨
    (∃ hm regs, s.handler = some hm ∧ s.gateway ≠ [] ∧
      hm.handleErr [] "/_health" = none ∧
      (Service.initGateways hm ctx 0 ["/_health"] s.gateway).2 = .ok regs ∧
      hm.initErr = none ∧
      s.init ctx = ((SvEv.handle "/_health" true ::
        (Service.initGateways hm ctx 0 ["/_health"] s.gateway).1) ++ [SvEv.handlerInit],
        .ok regs)) := by
  rcases hh : s.handler with _ | hm
  · exact Or.inl ⟨rfl, by simp [Service.init, hh]⟩
  · rcases hge : s.gateway.isEmpty with _ | _
    · have hne : s.gateway ≠ [] := by
        intro hc
        rw [hc] at hge
        simp at hge
      rcases hhe : hm.handleErr [] "/_health" with _ | e
      · rcases hres : (Service.initGateways hm ctx 0 ["/_health"] s.gateway).2 with e | regs
        · refine Or.inr (Or.inr (Or.inr (Or.inl ⟨hm, e, rfl, hne, hhe, hres, ?_⟩)))
          simp [Service.init, hh, hge, hhe, hres]
        · rcases hie : hm.initErr with _ | e
          · refine Or.inr (Or.inr (Or.inr (Or.inr (Or.inr ⟨hm, regs, rfl, hne, hhe, hres, hie, ?_⟩))))
            simp [Service.init, hh, hge, hhe, hres, hie]
          · refine Or.inr (Or.inr (Or.inr (Or.inr (Or.inl ⟨hm, regs, e, rfl, hne, hhe, hres, hie, ?_⟩))))
            simp [Service.init, hh, hge, hhe, hres, hie]
      · refine Or.inr (Or.inr (Or.inl ⟨hm, e, rfl, hne, hhe, ?_⟩))
        simp [Service.init, hh, hge, hhe]
    · have hemp : s.gateway = [] := by
        rwa [List.isEmpty_iff] at hge
      refine Or.inr (Or.inl ⟨hm, rfl, hemp, ?_⟩)
      simp [Service.init, hh, hge]

/-- C2: `Service.Init` fails with a configuration error when no transport
handler is set or no gateways are configured; otherwise the health-check
endpoint is registered first; gateways are initialized in configuration order
(the recorded gateway indices are exactly `0, 1, 2, ...`); a route path is
registered only directly after that route's successful `Init`; any recorded
gateway `Init` failure makes the whole startup fail with that gateway's
wrapped error; and the transport is initialized last, only on a fully
successful startup (the transport-initialization event occurs only in a
successful trace, as its final event). -/
theorem service_init_contract (s : Service) (ctx : Ctx) :
    (s.handler = none → (s.init ctx).2 = .error "no request handler configuration found") ∧
    (s.handler ≠ none → s.gateway = [] →
      (s.init ctx).2 = .error "no gateway configuration found") ∧
    (s.handler ≠ none → s.gateway ≠ [] →
      ∃ b, ((s.init ctx).1).head? = some (SvEv.handle "/_health" b)) ∧
    (∀ i, SvEv.gwInit i false ∈ (s.init ctx).1 →
      ∃ e, (s.init ctx).2 = .error ("failed initializing gateway: " ++ e)) ∧
    (∀ k pat b, ((s.init ctx).1)[k + 1]? = some (SvEv.handle pat b) →
      ∃ i, ((s.init ctx).1)[k]? = some (SvEv.gwInit i true)) ∧
    (∃ n, ((s.init ctx).1).filterMap svGwIdx = List.range n) ∧
    (SvEv.handlerInit ∈ (s.init ctx).1 →
      (∃ regs, (s.init ctx).2 = .ok regs) ∧
      ((s.init ctx).1).getLast? = some SvEv.handlerInit) := by
  rcases Service.init_cases s ctx with
    ⟨h1, h2⟩ | ⟨hm, h1, hge, h2⟩ | ⟨hm, e, h1, hge, hhe, h2⟩ |
    ⟨hm, e, h1, hge, hhe, hres, h2⟩ | ⟨hm, regs, e, h1, hge, hhe, hres, hie, h2⟩ |
    ⟨hm, regs, h1, hge, hhe, hres, hie, h2⟩
  · refine ⟨?_, ?_, ?_, ?_, ?_, ?_, ?_⟩
    · intro _
      rw [h2]
    · intro hc _
      exact absurd h1 hc
    · intro hc _
      exact absurd h1 hc
    · intro i hmem
      rw [h2] at hmem
      simp at hmem
    · intro k pat b hk
      rw [h2] at hk
      simp at hk
    · refine ⟨0, ?_⟩
      rw [h2]
      rfl
    · intro hmem
      rw [h2] at hmem
      simp at hmem
  · refine ⟨?_, ?_, ?_, ?_, ?_, ?_, ?_⟩
    · intro hc
      rw [hc] at h1
      cases h1
    · intro _ _
      rw [h2]
    · intro _ hc
      exact absurd hge hc
    · intro i hmem
      rw [h2] at hmem
      simp at hmem
    · intro k pat b hk
      rw [h2] at hk
      simp at hk
    · refine ⟨0, ?_⟩
      rw [h2]
      rfl
    · intro hmem
      rw [h2] at hmem
      simp at hmem
  · refine ⟨?_, ?_, ?_, ?_, ?_, ?_, ?_⟩
    · intro hc
      rw [hc] at h1
      cases h1
    · intro _ hc
      exact absurd hc hge
    · intro _ _
      refine ⟨false, ?_⟩
      rw [h2]
      rfl
    · intro i hmem
      rw [h2] at hmem
      simp at hmem
    · intro k pat b hk
      rw [h2] at hk
      simp at hk
    · refine ⟨0, ?_⟩
      rw [h2]
      simp [svGwIdx]
    · intro hmem
      rw [h2] at hmem
      simp at hmem
  · obtain ⟨wf1, wf2⟩ := initGateways_handle_after hm ctx s.gateway 0 ["/_health"]
    refine ⟨?_, ?_, ?_, ?_, ?_, ?_, ?_⟩
    · intro hc
      rw [hc] at h1
      cases h1
    · intro _ hc
      exact absurd hc hge
    · intro _ _
      refine ⟨true, ?_⟩
      rw [h2]
      rfl
    · intro i hmem
      rw [h2] at hmem
      simp only [List.mem_cons] at hmem
      rcases hmem with hc | hmem
      · cases hc
      · obtain ⟨e2, he2⟩ := initGateways_fail hm ctx s.gateway 0 ["/_health"] i hmem
        rw [hres] at he2
        rw [h2]
        exact ⟨e2, by rw [← he2]⟩
    · intro k pat b hk
      rw [h2] at hk ⊢
      exact handle_after_cons _ _ wf1 wf2 k pat b hk
    · obtain ⟨m, hmr⟩ := initGateways_idx hm ctx s.gateway 0 ["/_health"]
      refine ⟨m, ?_⟩
      rw [h2]
      simp only [List.filterMap_cons, svGwIdx, hmr]
      rw [List.range_eq_range' m]
    · intro hmem
      rw [h2] at hmem
      simp only [List.mem_cons] at hmem
      rcases hmem with hc | hmem
      · cases hc
      · exact absurd hmem (initGateways_no_handlerInit hm ctx s.gateway 0 ["/_health"])
  · obtain ⟨wf1, wf2⟩ := initGateways_handle_after hm ctx s.gateway 0 ["/_health"]
    refine ⟨?_, ?_, ?_, ?_, ?_, ?_, ?_⟩
    · intro hc
      rw [hc] at h1
      cases h1
    · intro _ hc
      exact absurd hc hge
    · intro _ _
      refine ⟨true, ?_⟩
      rw [h2]
      rfl
    · intro i hmem
      rw [h2] at hmem
      simp only [List.mem_cons] at hmem
      rcases hmem with hc | hmem
      · cases hc
      · obtain ⟨e2, he2⟩ := initGateways_fail hm ctx s.gateway 0 ["/_health"] i hmem
        rw [hres] at he2
        cases he2
    · intro k pat b hk
      rw [h2] at hk ⊢
      exact handle_after_cons _ _ wf1 wf2 k pat b hk
    · obtain ⟨m, hmr⟩ := initGateways_idx hm ctx s.gateway 0 ["/_health"]
      refine ⟨m, ?_⟩
      rw [h2]
      simp only [List.filterMap_cons, svGwIdx, hmr]
      rw [List.range_eq_range' m]
    · intro hmem
      rw [h2] at hmem
      simp only [List.mem_cons] at hmem
      rcases hmem with hc | hmem
      · cases hc
      · exact absurd hmem (initGateways_no_handlerInit hm ctx s.gateway 0 ["/_health"])
  · obtain ⟨wf1, wf2⟩ := initGateways_handle_after hm ctx s.gateway 0 ["/_health"]
    refine ⟨?_, ?_, ?_, ?_, ?_, ?_, ?_⟩
    · intro hc
      rw [hc] at h1
      cases h1
    · intro _ hc
      exact absurd hc hge
    · intro _ _
      refine ⟨true, ?_⟩
      rw [h2]
      simp
    · intro i hmem
      rw [h2] at hmem
      simp only [List.mem_append, List.mem_cons] at hmem
      rcases hmem with (hc | hmem) | hc
      · cases hc
      · obtain ⟨e2, he2⟩ := initGateways_fail hm ctx s.gateway 0 ["/_health"] i hmem
        rw [hres] at he2
        cases he2
      · simp at hc
    · intro k pat b hk
      rw [h2] at hk ⊢
      refine handle_after_append _ _ (fun pat2 b2 hc => by cases hc) ?_ k pat b hk
      exact handle_after_cons _ _ wf1 wf2
    · obtain ⟨m, hmr⟩ := initGateways_idx hm ctx s.gateway 0 ["/_health"]
      refine ⟨m, ?_⟩
      rw [h2]
      simp only [List.filterMap_append, List.filterMap_cons, svGwIdx, hmr]
      simp [List.range_eq_range' m]
    · intro _
      refine ⟨⟨regs, by rw [h2]⟩, ?_⟩
      rw [h2]
      show (SvEv.handle "/_health" true ::
        ((Service.initGateways hm ctx 0 ["/_health"] s.gateway).1 ++ [SvEv.handlerInit])).getLast? =
        some SvEv.handlerInit
      rw [← List.cons_append, List.getLast?_concat]

/-- Witness for C2: the one-gateway service with the concrete transport model
registers the health endpoint first. -/
theorem service_init_contract_witness :
    ∃ b, ((svA.init []).1).head? = some (SvEv.handle "/_health" b) :=
  (service_init_contract svA []).2.2.1 (by simp [svA]) (by simp [svA])

/-- C4: with the ServeMux-backed transport (whose `Handle` fails on a pattern
equal to one already registered), a successful `Service.Init` registers
exactly the health endpoint followed by each route's resolved path, with no
duplicates: resolved paths are unique after a successful `Init`, and hence two
routes resolving to the same path make `Init` fail. -/
theorem service_init_unique_paths (s : Service) (hm : HandlerModel) (ctx : Ctx)
    (regs : List String) (hh : s.handler = some hm)
    (hspec : hm.handleErr = httpHandleErr) (hok : (s.init ctx).2 = .ok regs) :
    regs = "/_health" :: s.gateway.map Gateway.resolvedPath ∧ regs.Nodup ∧
    (s.gateway.map Gateway.resolvedPath).Nodup := by
  rcases Service.init_cases s ctx with
    ⟨h1, h2⟩ | ⟨hm2, h1, hge, h2⟩ | ⟨hm2, e, h1, hge, hhe, h2⟩ |
    ⟨hm2, e, h1, hge, hhe, hres, h2⟩ | ⟨hm2, regs2, e, h1, hge, hhe, hres, hie, h2⟩ |
    ⟨hm2, regs2, h1, hge, hhe, hres, hie, h2⟩
  · rw [h2] at hok
    cases hok
  · rw [h2] at hok
    cases hok
  · rw [h2] at hok
    cases hok
  · rw [h2] at hok
    cases hok
  · rw [h2] at hok
    cases hok
  · rw [hh] at h1
    injection h1 with h1e
    rw [← h1e] at hres
    rw [h2] at hok
    simp only at hok
    injection hok with hoke
    rw [← hoke]
    have hr := initGateways_ok hm ctx s.gateway 0 ["/_health"] regs2 hres
    have hnd := initGateways_nodup hm ctx hspec s.gateway 0 ["/_health"] regs2
      (by simp) hres
    refine ⟨by rw [hr]; rfl, hnd, ?_⟩
    rw [hr] at hnd
    exact (List.nodup_cons.mp hnd).2

/-- Witness for C4: the one-gateway service registers the health endpoint and
`/a`, with no duplicates. -/
theorem service_init_unique_paths_witness :
    ["/_health", "/a"] = "/_health" :: svA.gateway.map Gateway.resolvedPath ∧
    (["/_health", "/a"] : List String).Nodup ∧
    (svA.gateway.map Gateway.resolvedPath).Nodup :=
  service_init_unique_paths svA hmHTTP [] ["/_health", "/a"] rfl rfl rfl

end WebhookGateway
